import Mathlib

/-!
Shallow embedding of the MySQL date/time arithmetic core
(util/types/mytime.go) and verification of its specification.

Modelling conventions:
* Go machine integers are modelled as unbounded Lean Int; every place where
  Go's fixed width is observable gets an explicit reduction:
  the unsigned struct fields of mysqlTime carry their width bounds as
  invariants, Go conversions such as uint8(x) are modelled as x % 2^8
  (Euclidean mod, which agrees with two's-complement truncation), and the
  uint month arithmetic of timestampDiff is wrapped with an explicit
  % 2^64 followed by a signed reinterpretation for the int64 conversion.
* Go division and remainder on signed integers truncate toward zero, so
  they are modelled with Int.tdiv and Int.tmod.  Go's x & 3 on a signed
  int is two's-complement, which agrees with Euclidean x % 4.
* int64 intermediate values in calcTimeDiff and timestampDiff never
  overflow for field values admitted by the struct widths (the largest
  magnitude is below 2^62), so they are modelled as exact Int arithmetic.
-/

/-- Representation of the Go struct mysqlTime.  The fields are the
unsigned machine integers of the source (year uint16, month/day/hour/
minute/second uint8, microsecond uint32); the width bounds that the Go
types enforce are carried as invariants. -/
structure mysqlTime where
  year : Int
  month : Int
  day : Int
  hour : Int
  minute : Int
  second : Int
  microsecond : Int
  hyear : 0 ≤ year ∧ year < 65536
  hmonth : 0 ≤ month ∧ month < 256
  hday : 0 ≤ day ∧ day < 256
  hhour : 0 ≤ hour ∧ hour < 256
  hminute : 0 ≤ minute ∧ minute < 256
  hsecond : 0 ≤ second ∧ second < 256
  hmicrosecond : 0 ≤ microsecond ∧ microsecond < 4294967296

/-- Port of newMysqlTime: the Go conversions uint16(year), uint8(month),
... are the two's-complement truncations, i.e. Euclidean mod by the
width. -/
def newMysqlTime (year month day hour minute second microsecond : Int) :
    mysqlTime where
  year := year % 65536
  month := month % 256
  day := day % 256
  hour := hour % 256
  minute := minute % 256
  second := second % 256
  microsecond := microsecond % 4294967296
  hyear := ⟨Int.emod_nonneg year (by norm_num), Int.emod_lt_of_pos year (by norm_num)⟩
  hmonth := ⟨Int.emod_nonneg month (by norm_num), Int.emod_lt_of_pos month (by norm_num)⟩
  hday := ⟨Int.emod_nonneg day (by norm_num), Int.emod_lt_of_pos day (by norm_num)⟩
  hhour := ⟨Int.emod_nonneg hour (by norm_num), Int.emod_lt_of_pos hour (by norm_num)⟩
  hminute := ⟨Int.emod_nonneg minute (by norm_num), Int.emod_lt_of_pos minute (by norm_num)⟩
  hsecond := ⟨Int.emod_nonneg second (by norm_num), Int.emod_lt_of_pos second (by norm_num)⟩
  hmicrosecond := ⟨Int.emod_nonneg microsecond (by norm_num),
    Int.emod_lt_of_pos microsecond (by norm_num)⟩

/-- Accessor Year of the source (returns the field as a Go int). -/
def mysqlTime.Year (t : mysqlTime) : Int := t.year

/-- Accessor Month of the source. -/
def mysqlTime.Month (t : mysqlTime) : Int := t.month

/-- Accessor Day of the source. -/
def mysqlTime.Day (t : mysqlTime) : Int := t.day

/-- Accessor Hour of the source. -/
def mysqlTime.Hour (t : mysqlTime) : Int := t.hour

/-- Accessor Minute of the source. -/
def mysqlTime.Minute (t : mysqlTime) : Int := t.minute

/-- Accessor Second of the source. -/
def mysqlTime.Second (t : mysqlTime) : Int := t.second

/-- Accessor Microsecond of the source. -/
def mysqlTime.Microsecond (t : mysqlTime) : Int := t.microsecond

/-- Port of calcDaynr: days since 0000-00-00.  Go integer division and
remainder truncate toward zero, hence Int.tdiv. -/
def calcDaynr (year month day : Int) : Int :=
  if year = 0 ∧ month = 0 then 0
  else
    let delsum := 365 * year + 31 * (month - 1) + day
    let year2 := if month ≤ 2 then year - 1 else year
    let delsum2 := if month ≤ 2 then delsum else delsum - (month * 4 + 23).tdiv 10
    delsum2 + year2.tdiv 4 - ((year2.tdiv 100 + 1) * 3).tdiv 4

/-- Port of calcDaysInYear.  The Go test year&3 == 0 on a signed int is
two's-complement, i.e. Euclidean year % 4 = 0; the Go % operator
truncates (Int.tmod). -/
def calcDaysInYear (year : Int) : Int :=
  if year % 4 = 0 ∧ (year.tmod 100 ≠ 0 ∨ (year.tmod 400 = 0 ∧ year ≠ 0)) then 366
  else 365

/-- Port of calcWeekday: weekday from daynr, 0 for Monday. -/
def calcWeekday (daynr : Int) (sundayFirstDayOfWeek : Bool) : Int :=
  (daynr + 5 + (if sundayFirstDayOfWeek then 1 else 0)).tmod 7

/-- Flag weekBehaviourMondayFirst (1 << 0) of the source. -/
def weekBehaviourMondayFirst : Nat := 1

/-- Flag weekBehaviourYear (1 << 1) of the source. -/
def weekBehaviourYear : Nat := 2

/-- Flag weekBehaviourFirstWeekday (1 << 2) of the source. -/
def weekBehaviourFirstWeekday : Nat := 4

/-- Port of the method test of weekBehaviour: (v & flag) != 0. -/
def wbTest (v flag : Nat) : Bool := v &&& flag != 0

/-- Port of weekMode.  mode & 7 on a Go int is the two's-complement mask,
i.e. Euclidean mode % 8; the xor with weekBehaviourFirstWeekday fires
when the MondayFirst bit is unset. -/
def weekMode (mode : Int) : Nat :=
  let weekFormat := (mode % 8).toNat
  if weekFormat &&& weekBehaviourMondayFirst = 0 then
    weekFormat ^^^ weekBehaviourFirstWeekday
  else weekFormat

/-- Shared tail of calcWeek, from the computation of days to the return.
It receives the (possibly adjusted) daynr of Jan 1, the weekYear flag,
and the weekday of the (possibly adjusted) Jan 1. -/
def calcWeekTail (daynr firstDaynr : Int) (weekYear firstWeekday : Bool)
    (weekday year : Int) : Int × Int :=
  let days :=
    if (firstWeekday ∧ weekday ≠ 0) ∨ (¬firstWeekday ∧ 4 ≤ weekday) then
      daynr - (firstDaynr + 7 - weekday)
    else
      daynr - (firstDaynr - weekday)
  if weekYear ∧ 52 * 7 ≤ days then
    let weekday2 := (weekday + calcDaysInYear year).tmod 7
    if (¬firstWeekday ∧ weekday2 < 4) ∨ (firstWeekday ∧ weekday2 = 0) then
      (year + 1, 1)
    else
      (year, days.tdiv 7 + 1)
  else
    (year, days.tdiv 7 + 1)

/-- Port of calcWeek.  The Go mutation of weekYear/year/firstDaynr/
weekday in the first-partial-week-of-January branch is expressed by
calling the shared tail with the adjusted values. -/
def calcWeek (t : mysqlTime) (wb : Nat) : Int × Int :=
  let daynr := calcDaynr t.year t.month t.day
  let firstDaynr := calcDaynr t.year 1 1
  let mondayFirst := wbTest wb weekBehaviourMondayFirst
  let weekYear := wbTest wb weekBehaviourYear
  let firstWeekday := wbTest wb weekBehaviourFirstWeekday
  let weekday := calcWeekday firstDaynr (!mondayFirst)
  if t.month = 1 ∧ t.day ≤ 7 - weekday then
    if ¬weekYear ∧ ((firstWeekday ∧ weekday ≠ 0) ∨ (¬firstWeekday ∧ 4 ≤ weekday)) then
      (t.year, 0)
    else
      let year := t.year - 1
      let days := calcDaysInYear year
      calcWeekTail daynr (firstDaynr - days) true firstWeekday
        ((weekday + 53 * 7 - days).tmod 7) year
  else
    calcWeekTail daynr firstDaynr weekYear firstWeekday weekday t.year

/-- Port of the method YearWeek: calcWeek with the Year flag forced on. -/
def mysqlTime.YearWeek (t : mysqlTime) (mode : Int) : Int × Int :=
  calcWeek t (weekMode mode ||| weekBehaviourYear)

/-- Port of the method Week: 0 for a zero month or day, else the week
component of calcWeek. -/
def mysqlTime.Week (t : mysqlTime) (mode : Int) : Int :=
  if t.month = 0 ∨ t.day = 0 then 0
  else (calcWeek t (weekMode mode)).2

/-- Port of calcTimeFromSec.  The stores into the uint8/uint32 fields are
the Go conversions, i.e. truncation mod the width; the date fields of
the receiver (named to in the source, a reserved word here) are untouched. -/
def calcTimeFromSec (tv : mysqlTime) (seconds microseconds : Int) : mysqlTime where
  year := tv.year
  month := tv.month
  day := tv.day
  hour := (seconds.tdiv 3600) % 256
  minute := ((seconds.tmod 3600).tdiv 60) % 256
  second := ((seconds.tmod 3600).tmod 60) % 256
  microsecond := microseconds % 4294967296
  hyear := tv.hyear
  hmonth := tv.hmonth
  hday := tv.hday
  hhour := ⟨Int.emod_nonneg _ (by norm_num), Int.emod_lt_of_pos _ (by norm_num)⟩
  hminute := ⟨Int.emod_nonneg _ (by norm_num), Int.emod_lt_of_pos _ (by norm_num)⟩
  hsecond := ⟨Int.emod_nonneg _ (by norm_num), Int.emod_lt_of_pos _ (by norm_num)⟩
  hmicrosecond := ⟨Int.emod_nonneg _ (by norm_num), Int.emod_lt_of_pos _ (by norm_num)⟩

/-- Constant secondsIn24Hour of the source. -/
def secondsIn24Hour : Int := 86400

/-- Port of calcTimeDiff.  Returns (seconds, microseconds, neg).  The Go
int64 arithmetic never overflows for struct-representable fields, so it
is exact; the final divisions of the non-negative tmp use Go truncating
division. -/
def calcTimeDiff (t1 t2 : mysqlTime) (sign : Int) : Int × Int × Bool :=
  let days := calcDaynr t1.Year t1.Month t1.Day -
    sign * calcDaynr t2.Year t2.Month t2.Day
  let tmp := (days * secondsIn24Hour +
      t1.Hour * 3600 + t1.Minute * 60 + t1.Second -
      sign * (t2.Hour * 3600 + t2.Minute * 60 + t2.Second)) * 1000000 +
    t1.Microsecond - sign * t2.Microsecond
  let tmp2 := if tmp < 0 then -tmp else tmp
  (tmp2.tdiv 1000000, tmp2.tmod 1000000, decide (tmp < 0))

/-- Seconds-of-day expression t.Hour()*3600 + t.Minute()*60 + t.Second()
used by timestampDiff for the begin/end second fields. -/
def secondsOfDay (t : mysqlTime) : Int := t.Hour * 3600 + t.Minute * 60 + t.Second

/-- Month counting of timestampDiff between the chronological begin and
end tuples (year, month, day, secondsOfDay, microsecond), computed in
exact integers.  In the source this runs on Go uint values; since all
the uint operations involved are ring operations and the branch
conditions compare unwrapped nonnegative field values, the Go uint
result is exactly this value reduced mod 2^64 (the reduction is applied
at the use site in timestampDiff). -/
def monthsBetween (yearBeg monthBeg dayBeg secondBeg microsecondBeg
    yearEnd monthEnd dayEnd secondEnd microsecondEnd : Int) : Int :=
  let backward := monthEnd < monthBeg ∨ (monthEnd = monthBeg ∧ dayEnd < dayBeg)
  let years := if backward then yearEnd - yearBeg - 1 else yearEnd - yearBeg
  let months := 12 * years +
    (if backward then 12 - (monthBeg - monthEnd) else monthEnd - monthBeg)
  if dayEnd < dayBeg then months - 1
  else if dayEnd = dayBeg ∧
      (secondEnd < secondBeg ∨ (secondEnd = secondBeg ∧ microsecondEnd < microsecondBeg)) then
    months - 1
  else months

/-- Port of timestampDiff.  The months value is the Go uint computation
reduced mod 2^64 and then reinterpreted as int64 (conversion of a uint
value with the high bit set yields the negative representative); all
remaining arithmetic is exact int64, with Go truncating division. -/
def timestampDiff (intervalType : String) (t1 t2 : mysqlTime) : Int :=
  let r := calcTimeDiff t2 t1 1
  let seconds := r.1
  let microseconds := r.2.1
  let neg := r.2.2
  let months :=
    (if neg then
      monthsBetween t2.Year t2.Month t2.Day (secondsOfDay t2) t2.Microsecond
        t1.Year t1.Month t1.Day (secondsOfDay t1) t1.Microsecond
    else
      monthsBetween t1.Year t1.Month t1.Day (secondsOfDay t1) t1.Microsecond
        t2.Year t2.Month t2.Day (secondsOfDay t2) t2.Microsecond) % 18446744073709551616
  let monthsI := if months < 9223372036854775808 then months
    else months - 18446744073709551616
  let negV : Int := if neg then -1 else 1
  if intervalType = "YEAR" then monthsI.tdiv 12 * negV
  else if intervalType = "QUARTER" then monthsI.tdiv 3 * negV
  else if intervalType = "MONTH" then monthsI * negV
  else if intervalType = "WEEK" then (seconds.tdiv secondsIn24Hour).tdiv 7 * negV
  else if intervalType = "DAY" then seconds.tdiv secondsIn24Hour * negV
  else if intervalType = "HOUR" then seconds.tdiv 3600 * negV
  else if intervalType = "MINUTE" then seconds.tdiv 60 * negV
  else if intervalType = "SECOND" then seconds * negV
  else if intervalType = "MICROSECOND" then (seconds * 1000000 + microseconds) * negV
  else 0

/-- Total-microseconds reading of a time value on the calcDaynr scale;
calcTimeDiff (a, b, +1) computes exactly totalMicros a - totalMicros b.
This is the order that the neg flag of calcTimeDiff reports. -/
def totalMicros (t : mysqlTime) : Int :=
  (calcDaynr t.year t.month t.day * 86400 +
    t.hour * 3600 + t.minute * 60 + t.second) * 1000000 + t.microsecond

/-- Normalized civil timestamp produced by the Go standard library
conversion used by GoTime: the fields reported by Date(), Clock() and
Nanosecond() of the constructed gotime.Time value. -/
structure goCivilTime where
  year : Int
  month : Int
  day : Int
  hour : Int
  minute : Int
  second : Int
  nanosecond : Int
deriving DecidableEq

/-- Modelled from the Go standard library (an external collaborator of
this repository): days from the proleptic-Gregorian epoch 1970-01-01 to
the date (y, m, 1) with m already normalized into 1..12.  Divisions are
Euclidean, which is floor division here since the divisors are
positive. -/
def daysFromCivilMonthStart (y m : Int) : Int :=
  let y2 := if m ≤ 2 then y - 1 else y
  let era := y2 / 400
  let yoe := y2 - era * 400
  let doy := (153 * (if 2 < m then m - 3 else m + 9) + 2) / 5
  let doe := yoe * 365 + yoe / 4 - yoe / 100 + doy
  era * 146097 + doe - 719468

/-- Modelled from the Go standard library: the proleptic-Gregorian civil
date of the day that lies z days after 1970-01-01. -/
def civilFromDays (z : Int) : Int × Int × Int :=
  let z2 := z + 719468
  let era := z2 / 146097
  let doe := z2 - era * 146097
  let yoe := (doe - doe / 1460 + doe / 36524 - doe / 146096) / 365
  let y := yoe + era * 400
  let doy := doe - (365 * yoe + yoe / 4 - yoe / 100)
  let mp := (5 * doy + 2) / 153
  let d := doy - (153 * mp + 2) / 5 + 1
  let m := if mp < 10 then mp + 3 else mp - 9
  (if m ≤ 2 then y + 1 else y, m, d)

/-- Modelled from the Go standard library: the normalization performed by
gotime.Date for a fixed-offset location.  Nanoseconds, seconds, minutes
and hours are folded into the day with floor semantics (Go's norm
helper), the month is folded into the year, and finally the day offset
is resolved through the civil calendar, which turns out-of-range day
values (such as day 0) into a nearby real date. -/
def goDate (year month day hour minute second nanosecond : Int) : goCivilTime :=
  let second2 := second + nanosecond / 1000000000
  let nanosecond2 := nanosecond % 1000000000
  let minute2 := minute + second2 / 60
  let second3 := second2 % 60
  let hour2 := hour + minute2 / 60
  let minute3 := minute2 % 60
  let day2 := day + hour2 / 24
  let hour3 := hour2 % 24
  let m0 := month - 1
  let year2 := year + m0 / 12
  let month2 := m0 % 12 + 1
  let abs := daysFromCivilMonthStart year2 month2 + (day2 - 1)
  let ymd := civilFromDays abs
  ⟨ymd.1, ymd.2.1, ymd.2.2, hour3, minute3, second3, nanosecond2⟩

/-- Port of the method GoTime.  The Boolean component is true exactly
when the source returns ErrInvalidTimeFormat: some field re-extracted
from the normalized timestamp differs from the input.  The normalized
timestamp itself is returned in both the success and the failure
case, exactly as the source returns tm alongside the error. -/
def mysqlTime.GoTime (t : mysqlTime) : goCivilTime × Bool :=
  let tm := goDate t.Year t.Month t.Day t.Hour t.Minute t.Second (t.Microsecond * 1000)
  (tm, decide (¬(tm.year = t.Year ∧ tm.month = t.Month ∧ tm.day = t.Day ∧
    tm.hour = t.Hour ∧ tm.minute = t.Minute ∧ tm.second = t.Second ∧
    tm.nanosecond / 1000 = t.Microsecond)))

/-- Gregorian leap-year predicate, the standard rule used to describe
real calendar dates. -/
def isLeapYear (y : Int) : Prop := y % 4 = 0 ∧ (y % 100 ≠ 0 ∨ y % 400 = 0)

instance (y : Int) : Decidable (isLeapYear y) := by unfold isLeapYear; infer_instance

/-- Length of a month of the real Gregorian calendar. -/
def daysInMonth (y m : Int) : Int :=
  if m = 2 then (if isLeapYear y then 29 else 28)
  else if m = 4 ∨ m = 6 ∨ m = 9 ∨ m = 11 then 30
  else 31

/-- Real calendar date with a positive year: the month is 1..12 and the
day is within the month. -/
def validDate (y m d : Int) : Prop :=
  1 ≤ y ∧ 1 ≤ m ∧ m ≤ 12 ∧ 1 ≤ d ∧ d ≤ daysInMonth y m

/-- Time value whose fields are within the documented wall-clock ranges
and whose date is a real calendar date. -/
def validTime (t : mysqlTime) : Prop :=
  validDate t.year t.month t.day ∧
    t.hour ≤ 23 ∧ t.minute ≤ 59 ∧ t.second ≤ 59 ∧ t.microsecond ≤ 999999

/-- Next day of a real calendar date. -/
def nextDate (y m d : Int) : Int × Int × Int :=
  if d < daysInMonth y m then (y, m, d + 1)
  else if m < 12 then (y, m + 1, 1)
  else (y + 1, 1, 1)

/-- Strict lexicographic order on the (year, month, day, second-of-day,
microsecond) reading of a time value. -/
def lexLt (t1 t2 : mysqlTime) : Prop :=
  t1.year < t2.year ∨ (t1.year = t2.year ∧ (t1.month < t2.month ∨ (t1.month = t2.month ∧
    (t1.day < t2.day ∨ (t1.day = t2.day ∧ (secondsOfDay t1 < secondsOfDay t2 ∨
      (secondsOfDay t1 = secondsOfDay t2 ∧ t1.microsecond < t2.microsecond)))))))

/-- Reflexive lexicographic order on the (year, month, day, second-of-day,
microsecond) reading of a time value. -/
def lexLe (t1 t2 : mysqlTime) : Prop :=
  t1.year < t2.year ∨ (t1.year = t2.year ∧ (t1.month < t2.month ∨ (t1.month = t2.month ∧
    (t1.day < t2.day ∨ (t1.day = t2.day ∧ (secondsOfDay t1 < secondsOfDay t2 ∨
      (secondsOfDay t1 = secondsOfDay t2 ∧ t1.microsecond ≤ t2.microsecond)))))))

instance (y m d : Int) : Decidable (validDate y m d) := by
  unfold validDate
  infer_instance

instance (t : mysqlTime) : Decidable (validTime t) := by
  unfold validTime
  infer_instance

/-- Truncating division agrees with Euclidean division on non-negative
operands. -/
lemma tdiv_nonneg_eq_ediv (a b : Int) (ha : 0 ≤ a) (hb : 0 ≤ b) :
    a.tdiv b = a / b := by
  obtain ⟨m, rfl⟩ := Int.eq_ofNat_of_zero_le ha
  obtain ⟨n, rfl⟩ := Int.eq_ofNat_of_zero_le hb
  rfl

/-- Truncating remainder agrees with Euclidean remainder on non-negative
operands. -/
lemma tmod_nonneg_eq_emod (a b : Int) (ha : 0 ≤ a) (hb : 0 ≤ b) :
    a.tmod b = a % b := by
  obtain ⟨m, rfl⟩ := Int.eq_ofNat_of_zero_le ha
  obtain ⟨n, rfl⟩ := Int.eq_ofNat_of_zero_le hb
  rfl

/-- Every month length lies between 28 and 31. -/
lemma daysInMonth_bounds (y m : Int) : 28 ≤ daysInMonth y m ∧ daysInMonth y m ≤ 31 := by
  unfold daysInMonth
  split_ifs <;> omega

/-- Century correction of calcDaynr in subtractive form: for a
non-negative year, ((y/100 + 1) * 3) / 4 counts the century years that
are not multiples of 400. -/
lemma centuryCorrection (y : Int) (hy : 0 ≤ y) :
    ((y / 100 + 1) * 3) / 4 = y / 100 - y / 400 := by
  have h : y / 400 = y / 100 / 4 := by omega
  have hc : 0 ≤ y / 100 := by positivity
  omega

/-- Closed Euclidean-division form of calcDaynr for a positive year and
month. -/
lemma calcDaynr_eq_ediv (y m d : Int) (hy : 1 ≤ y) (hm : 1 ≤ m) :
    calcDaynr y m d =
      if m ≤ 2 then
        365 * y + 31 * (m - 1) + d + (y - 1) / 4 - ((y - 1) / 100 - (y - 1) / 400)
      else
        365 * y + 31 * (m - 1) + d - (m * 4 + 23) / 10 + y / 4 - (y / 100 - y / 400) := by
  simp only [calcDaynr, if_neg (by omega : ¬(y = 0 ∧ m = 0))]
  split_ifs with h
  · rw [tdiv_nonneg_eq_ediv (y - 1) 4 (by omega) (by omega),
      tdiv_nonneg_eq_ediv (y - 1) 100 (by omega) (by omega),
      tdiv_nonneg_eq_ediv _ 4 (by omega) (by omega),
      centuryCorrection (y - 1) (by omega)]
  · rw [tdiv_nonneg_eq_ediv (m * 4 + 23) 10 (by omega) (by omega),
      tdiv_nonneg_eq_ediv y 4 (by omega) (by omega),
      tdiv_nonneg_eq_ediv y 100 (by omega) (by omega),
      tdiv_nonneg_eq_ediv _ 4 (by omega) (by omega),
      centuryCorrection y (by omega)]

/-- calcDaynr is an affine function of the day. -/
lemma calcDaynr_day (y m d : Int) (hy : 1 ≤ y) (hm : 1 ≤ m) :
    calcDaynr y m d = calcDaynr y m 1 + (d - 1) := by
  rw [calcDaynr_eq_ediv y m d hy hm, calcDaynr_eq_ediv y m 1 hy hm]
  split_ifs <;> ring

/-- Advancing calcDaynr from the first of a month by the month length
reaches the first of the next month (month 13 denoting January of the
next year inside the calcDaynr formula). -/
lemma calcDaynr_month_step (y m : Int) (hy : 1 ≤ y) (hm1 : 1 ≤ m) (hm2 : m ≤ 12) :
    calcDaynr y (m + 1) 1 = calcDaynr y m 1 + daysInMonth y m := by
  rw [calcDaynr_eq_ediv y (m + 1) 1 hy (by omega), calcDaynr_eq_ediv y m 1 hy hm1]
  unfold daysInMonth isLeapYear
  interval_cases m <;> norm_num <;> first | (split_ifs <;> omega) | omega

/-- The starts of months are monotone within a calcDaynr year (with 13
denoting January of the next year). -/
lemma calcDaynr_month_start_mono (y m m' : Int) (hy : 1 ≤ y) (hm : 1 ≤ m)
    (hmm : m ≤ m') (hm' : m' ≤ 13) : calcDaynr y m 1 ≤ calcDaynr y m' 1 := by
  have key : ∀ n, m ≤ n → (n ≤ 13 → calcDaynr y m 1 ≤ calcDaynr y n 1) := by
    refine Int.le_induction ?_ ?_
    · intro _
      exact le_refl _
    · intro n hmn ih hn13
      have hstep := calcDaynr_month_step y n hy (by omega) (by omega)
      have hd := daysInMonth_bounds y n
      have hih := ih (by omega)
      linarith
  exact key m' hmm hm'

/-- Month 13, day 1 of a calcDaynr year is January 1 of the next year. -/
lemma calcDaynr_year_wrap (y : Int) (hy : 1 ≤ y) :
    calcDaynr y 13 1 = calcDaynr (y + 1) 1 1 := by
  rw [calcDaynr_eq_ediv y 13 1 hy (by omega), calcDaynr_eq_ediv (y + 1) 1 1 (by omega) (by omega)]
  norm_num
  omega

/-- December 31 is the day before January 1 of the next year. -/
lemma calcDaynr_year_step (y : Int) (hy : 1 ≤ y) :
    calcDaynr (y + 1) 1 1 = calcDaynr y 12 31 + 1 := by
  rw [calcDaynr_eq_ediv (y + 1) 1 1 (by omega) (by omega),
    calcDaynr_eq_ediv y 12 31 hy (by omega)]
  norm_num
  omega

/-- January 1 days are strictly monotone across years: December 31 of an
earlier year comes strictly before January 1 of a later year. -/
lemma calcDaynr_year_mono (y1 y2 : Int) (hy1 : 1 ≤ y1) (hlt : y1 < y2) :
    calcDaynr y1 12 31 < calcDaynr y2 1 1 := by
  rw [calcDaynr_eq_ediv y1 12 31 hy1 (by omega),
    calcDaynr_eq_ediv y2 1 1 (by omega) (by omega)]
  norm_num
  omega

/-- Any valid day of a year lies between January 1 and December 31 of
that year on the calcDaynr scale. -/
lemma calcDaynr_year_bounds (y m d : Int) (h : validDate y m d) :
    calcDaynr y 1 1 ≤ calcDaynr y m d ∧ calcDaynr y m d ≤ calcDaynr y 12 31 := by
  obtain ⟨hy, hm1, hm2, hd1, hd2⟩ := h
  have hday := calcDaynr_day y m d hy hm1
  have hstep := calcDaynr_month_step y m hy hm1 hm2
  have hlo := calcDaynr_month_start_mono y 1 m hy (by omega) hm1 (by omega)
  have hhi := calcDaynr_month_start_mono y (m + 1) 13 hy (by omega) (by omega) (by omega)
  have hwrap := calcDaynr_year_wrap y hy
  have hys := calcDaynr_year_step y hy
  constructor <;> linarith

/-- calcDaynr is strictly monotone on valid dates ordered
lexicographically. -/
lemma calcDaynr_lt_of_lex_lt (y1 m1 d1 y2 m2 d2 : Int)
    (h1 : validDate y1 m1 d1) (h2 : validDate y2 m2 d2)
    (hlt : y1 < y2 ∨ (y1 = y2 ∧ (m1 < m2 ∨ (m1 = m2 ∧ d1 < d2)))) :
    calcDaynr y1 m1 d1 < calcDaynr y2 m2 d2 := by
  obtain ⟨hy1, hm11, hm12, hd11, hd12⟩ := h1
  obtain ⟨hy2, hm21, hm22, hd21, hd22⟩ := h2
  rcases hlt with hy | ⟨rfl, hm | ⟨rfl, hd⟩⟩
  · have hb1 := calcDaynr_year_bounds y1 m1 d1 ⟨hy1, hm11, hm12, hd11, hd12⟩
    have hb2 := calcDaynr_year_bounds y2 m2 d2 ⟨hy2, hm21, hm22, hd21, hd22⟩
    have := calcDaynr_year_mono y1 y2 hy1 hy
    linarith
  · have hday1 := calcDaynr_day y1 m1 d1 hy1 hm11
    have hday2 := calcDaynr_day y1 m2 d2 hy1 hm21
    have hstep := calcDaynr_month_step y1 m1 hy1 hm11 hm12
    have hmono := calcDaynr_month_start_mono y1 (m1 + 1) m2 hy1 (by omega) (by omega) (by omega)
    linarith
  · have hday1 := calcDaynr_day y1 m1 d1 hy1 hm11
    have hday2 := calcDaynr_day y1 m1 d2 hy1 hm11
    linarith

/-- Stepping a valid date to the next calendar day advances calcDaynr by
exactly one, across month and year boundaries included. -/
lemma calcDaynr_nextDate (y m d : Int) (h : validDate y m d) :
    calcDaynr (nextDate y m d).1 (nextDate y m d).2.1 (nextDate y m d).2.2 =
      calcDaynr y m d + 1 := by
  obtain ⟨hy, hm1, hm2, hd1, hd2⟩ := h
  unfold nextDate
  split_ifs with h1 h2
  · have ha := calcDaynr_day y m (d + 1) hy hm1
    have hb := calcDaynr_day y m d hy hm1
    simp only
    linarith
  · have ha := calcDaynr_month_step y m hy hm1 hm2
    have hb := calcDaynr_day y m d hy hm1
    simp only
    linarith
  · have hm12 : m = 12 := by omega
    subst hm12
    have hd31 : d = 31 := by
      have : daysInMonth y 12 = 31 := by norm_num [daysInMonth]
      omega
    subst hd31
    simp only
    exact calcDaynr_year_step y hy

/-- Outcome of calcTimeDiff with sign +1 expressed through the
total-microsecond difference: the internal tmp value is exactly
totalMicros t1 - totalMicros t2. -/
lemma calcTimeDiff_plus_eq (t1 t2 : mysqlTime) :
    calcTimeDiff t1 t2 1 =
      ((if totalMicros t1 - totalMicros t2 < 0 then -(totalMicros t1 - totalMicros t2)
        else totalMicros t1 - totalMicros t2).tdiv 1000000,
       (if totalMicros t1 - totalMicros t2 < 0 then -(totalMicros t1 - totalMicros t2)
        else totalMicros t1 - totalMicros t2).tmod 1000000,
       decide (totalMicros t1 - totalMicros t2 < 0)) := by
  have h : ((calcDaynr t1.Year t1.Month t1.Day - 1 * calcDaynr t2.Year t2.Month t2.Day) *
        secondsIn24Hour + t1.Hour * 3600 + t1.Minute * 60 + t1.Second -
        1 * (t2.Hour * 3600 + t2.Minute * 60 + t2.Second)) * 1000000 +
        t1.Microsecond - 1 * t2.Microsecond = totalMicros t1 - totalMicros t2 := by
    unfold totalMicros mysqlTime.Year mysqlTime.Month mysqlTime.Day mysqlTime.Hour
      mysqlTime.Minute mysqlTime.Second mysqlTime.Microsecond secondsIn24Hour
    ring
  simp only [calcTimeDiff]
  rw [h]

/-- Strict lexicographic order of valid time values implies strict order
of their total-microsecond readings. -/
lemma totalMicros_lt_of_lexLt (t1 t2 : mysqlTime) (hv1 : validTime t1)
    (hv2 : validTime t2) (hlt : lexLt t1 t2) : totalMicros t1 < totalMicros t2 := by
  obtain ⟨y1, mo1, dd1, hh1, mm1, ss1, uu1, b11, b12, b13, b14, b15, b16, b17⟩ := t1
  obtain ⟨y2, mo2, dd2, hh2, mm2, ss2, uu2, b21, b22, b23, b24, b25, b26, b27⟩ := t2
  simp only [validTime, validDate, lexLt, totalMicros, secondsOfDay,
    mysqlTime.Hour, mysqlTime.Minute, mysqlTime.Second] at *
  obtain ⟨⟨hvy1, hvm11, hvm12, hvd11, hvd12⟩, hvh1, hvmi1, hvs1, hvu1⟩ := hv1
  obtain ⟨⟨hvy2, hvm21, hvm22, hvd21, hvd22⟩, hvh2, hvmi2, hvs2, hvu2⟩ := hv2
  by_cases hdate : y1 < y2 ∨ (y1 = y2 ∧ (mo1 < mo2 ∨ (mo1 = mo2 ∧ dd1 < dd2)))
  · have hD := calcDaynr_lt_of_lex_lt y1 mo1 dd1 y2 mo2 dd2
      ⟨hvy1, hvm11, hvm12, hvd11, hvd12⟩ ⟨hvy2, hvm21, hvm22, hvd21, hvd22⟩ hdate
    nlinarith [b14.1, b15.1, b16.1, b17.1, b24.1, b25.1, b26.1, b27.1]
  · have hkey : y1 = y2 ∧ mo1 = mo2 ∧ dd1 = dd2 ∧
        (hh1 * 3600 + mm1 * 60 + ss1 < hh2 * 3600 + mm2 * 60 + ss2 ∨
          (hh1 * 3600 + mm1 * 60 + ss1 = hh2 * 3600 + mm2 * 60 + ss2 ∧ uu1 < uu2)) := by
      omega
    obtain ⟨hey, hem, hed, htime⟩ := hkey
    subst hey
    subst hem
    subst hed
    rcases htime with hts | ⟨hte, htu⟩
    · nlinarith [b17.1, b27.2]
    · linarith

/-- A valid time value whose total-microsecond reading is not above that
of another valid time value precedes it lexicographically. -/
lemma lexLe_of_totalMicros_le (t1 t2 : mysqlTime) (hv1 : validTime t1)
    (hv2 : validTime t2) (hle : totalMicros t1 ≤ totalMicros t2) : lexLe t1 t2 := by
  by_contra hcon
  have hlt : lexLt t2 t1 := by
    unfold lexLe at hcon
    unfold lexLt
    omega
  have := totalMicros_lt_of_lexLt t2 t1 hv2 hv1 hlt
  linarith

/-- Month counting is non-negative between lexicographically ordered
tuples with months in 1..12 and positive days. -/
lemma monthsBetween_nonneg (yB mB dB sB uB yE mE dE sE uE : Int)
    (hmB1 : 1 ≤ mB) (hmB2 : mB ≤ 12) (hmE1 : 1 ≤ mE) (hmE2 : mE ≤ 12)
    (hdB : 1 ≤ dB) (hdE : 1 ≤ dE)
    (hlex : yB < yE ∨ (yB = yE ∧ (mB < mE ∨ (mB = mE ∧ (dB < dE ∨ (dB = dE ∧
      (sB < sE ∨ (sB = sE ∧ uB ≤ uE)))))))) :
    0 ≤ monthsBetween yB mB dB sB uB yE mE dE sE uE := by
  simp only [monthsBetween]
  split_ifs <;> omega

/-- Month counting stays far below 2^63 when the years lie in the uint16
range and the months in 1..12. -/
lemma monthsBetween_lt (yB mB dB sB uB yE mE dE sE uE : Int)
    (hyB : 0 ≤ yB) (hyE : yE < 65536) (hmB1 : 1 ≤ mB) (hmB2 : mB ≤ 12)
    (hmE1 : 1 ≤ mE) (hmE2 : mE ≤ 12) :
    monthsBetween yB mB dB sB uB yE mE dE sE uE < 9223372036854775808 := by
  simp only [monthsBetween]
  split_ifs <;> omega

/-- Month counting is non-positive between reverse-lexicographically
ordered tuples with months in 1..12. -/
lemma monthsBetween_nonpos (yB mB dB sB uB yE mE dE sE uE : Int)
    (hmB1 : 1 ≤ mB) (hmB2 : mB ≤ 12) (hmE1 : 1 ≤ mE) (hmE2 : mE ≤ 12)
    (hlex : yE < yB ∨ (yE = yB ∧ (mE < mB ∨ (mE = mB ∧ (dE < dB ∨ (dE = dB ∧
      (sE < sB ∨ (sE = sB ∧ uE ≤ uB)))))))) :
    monthsBetween yB mB dB sB uB yE mE dE sE uE ≤ 0 := by
  simp only [monthsBetween]
  split_ifs <;> omega

/-- Sign behaviour of timestampDiff for the six time-based units: the
result is non-negative when t2 is not earlier than t1 on the
total-microsecond scale and non-positive in the opposite case. -/
lemma timestampDiff_time_unit_sign (u : String) (t1 t2 : mysqlTime)
    (hu : u = "WEEK" ∨ u = "DAY" ∨ u = "HOUR" ∨ u = "MINUTE" ∨ u = "SECOND" ∨
      u = "MICROSECOND") :
    (totalMicros t1 ≤ totalMicros t2 → 0 ≤ timestampDiff u t1 t2) ∧
    (totalMicros t2 ≤ totalMicros t1 → timestampDiff u t1 t2 ≤ 0) := by
  have hcd := calcTimeDiff_plus_eq t2 t1
  rcases hu with rfl | rfl | rfl | rfl | rfl | rfl <;>
    simp only [timestampDiff, hcd] <;>
    simp <;>
    (constructor <;> intro h <;> split_ifs with hc) <;>
    first
      | linarith
      | (have h0 : totalMicros t2 - totalMicros t1 = 0 := by linarith
         rw [h0]
         decide)
      | (have ha : 0 ≤ (totalMicros t1 - totalMicros t2).tmod 1000000 :=
           Int.tmod_nonneg _ (by linarith)
         have hb : 0 ≤ (totalMicros t1 - totalMicros t2).tdiv 1000000 :=
           Int.tdiv_nonneg (by linarith) (by norm_num)
         linarith)
      | (repeat' first
          | linarith
          | decide
          | apply neg_nonpos_of_nonneg
          | apply Int.tdiv_nonneg
          | apply Int.tmod_nonneg
          | apply add_nonneg
          | apply mul_nonneg)

/-- Sign behaviour of timestampDiff for the three month-based units on
valid time values: non-negative when t2 is not earlier than t1 on the
total-microsecond scale, non-positive in the opposite case. -/
lemma timestampDiff_month_unit_sign (u : String) (t1 t2 : mysqlTime)
    (hu : u = "YEAR" ∨ u = "QUARTER" ∨ u = "MONTH")
    (hv1 : validTime t1) (hv2 : validTime t2) :
    (totalMicros t1 ≤ totalMicros t2 → 0 ≤ timestampDiff u t1 t2) ∧
    (totalMicros t2 ≤ totalMicros t1 → timestampDiff u t1 t2 ≤ 0) := by
  have hcd := calcTimeDiff_plus_eq t2 t1
  have hb1 := hv1
  have hb2 := hv2
  unfold validTime validDate at hb1 hb2
  obtain ⟨⟨hvy1, hvm11, hvm12, hvd11, hvd12⟩, hvh1, hvmi1, hvs1, hvu1⟩ := hb1
  obtain ⟨⟨hvy2, hvm21, hvm22, hvd21, hvd22⟩, hvh2, hvmi2, hvs2, hvu2⟩ := hb2
  have h12 : totalMicros t1 ≤ totalMicros t2 →
      0 ≤ monthsBetween t1.Year t1.Month t1.Day (secondsOfDay t1) t1.Microsecond
        t2.Year t2.Month t2.Day (secondsOfDay t2) t2.Microsecond := by
    intro hle
    exact monthsBetween_nonneg _ _ _ _ _ _ _ _ _ _ hvm11 hvm12 hvm21 hvm22 hvd11 hvd21
      (lexLe_of_totalMicros_le t1 t2 hv1 hv2 hle)
  have h21 : totalMicros t2 ≤ totalMicros t1 →
      0 ≤ monthsBetween t2.Year t2.Month t2.Day (secondsOfDay t2) t2.Microsecond
        t1.Year t1.Month t1.Day (secondsOfDay t1) t1.Microsecond := by
    intro hle
    exact monthsBetween_nonneg _ _ _ _ _ _ _ _ _ _ hvm21 hvm22 hvm11 hvm12 hvd21 hvd11
      (lexLe_of_totalMicros_le t2 t1 hv2 hv1 hle)
  have h12np : totalMicros t2 ≤ totalMicros t1 →
      monthsBetween t1.Year t1.Month t1.Day (secondsOfDay t1) t1.Microsecond
        t2.Year t2.Month t2.Day (secondsOfDay t2) t2.Microsecond ≤ 0 := by
    intro hle
    exact monthsBetween_nonpos _ _ _ _ _ _ _ _ _ _ hvm11 hvm12 hvm21 hvm22
      (lexLe_of_totalMicros_le t2 t1 hv2 hv1 hle)
  have hlt12 := monthsBetween_lt t1.Year t1.Month t1.Day (secondsOfDay t1) t1.Microsecond
    t2.Year t2.Month t2.Day (secondsOfDay t2) t2.Microsecond t1.hyear.1 t2.hyear.2
    hvm11 hvm12 hvm21 hvm22
  have hlt21 := monthsBetween_lt t2.Year t2.Month t2.Day (secondsOfDay t2) t2.Microsecond
    t1.Year t1.Month t1.Day (secondsOfDay t1) t1.Microsecond t2.hyear.1 t1.hyear.2
    hvm21 hvm22 hvm11 hvm12
  rcases hu with rfl | rfl | rfl <;>
    simp only [timestampDiff, hcd] <;>
    simp <;>
    constructor <;> intro h
  all_goals first
    | (have hf : (totalMicros t2 < totalMicros t1) = False := eq_false (by linarith)
       simp only [hf, if_false]
       rw [Int.emod_eq_of_lt (h12 (by linarith)) (by linarith), if_pos hlt12]
       first
        | exact Int.tdiv_nonneg (h12 (by linarith)) (by norm_num)
        | exact h12 (by linarith))
    | (by_cases heq : totalMicros t2 < totalMicros t1
       · have ht : (totalMicros t2 < totalMicros t1) = True := eq_true heq
         simp only [ht, if_true]
         rw [Int.emod_eq_of_lt (h21 (by linarith)) (by linarith), if_pos hlt21]
         first
          | exact neg_nonpos_of_nonneg (Int.tdiv_nonneg (h21 (by linarith)) (by norm_num))
          | exact neg_nonpos_of_nonneg (h21 (by linarith))
       · have hf : (totalMicros t2 < totalMicros t1) = False := eq_false heq
         simp only [hf, if_false]
         rw [show monthsBetween t1.Year t1.Month t1.Day (secondsOfDay t1) t1.Microsecond
            t2.Year t2.Month t2.Day (secondsOfDay t2) t2.Microsecond = 0 from
            le_antisymm (h12np (by linarith)) (h12 (by linarith))]
         decide)

/-- Negative-flag characterization of calcTimeDiff (t2, t1, +1): neg is
false exactly when t1 does not exceed t2 on the total-microsecond
scale. -/
lemma calcTimeDiff_neg_iff (t1 t2 : mysqlTime) :
    (calcTimeDiff t2 t1 1).2.2 = false ↔ totalMicros t1 ≤ totalMicros t2 := by
  rw [calcTimeDiff_plus_eq t2 t1]
  dsimp only
  simp only [decide_eq_false_iff_not, not_lt]
  constructor <;> intro h <;> linarith

/-- C1 (counterexample): the claim that 2000-01-01 yields (1999, 52)
under YearWeek mode 0 and (2000, 1) under mode 1 is false: mode 1 does
not return year 2000, week 1. -/
theorem c1_yearweek_2000_counterexample :
    ¬((newMysqlTime 2000 1 1 0 0 0 0).YearWeek 0 = (1999, 52) ∧
      (newMysqlTime 2000 1 1 0 0 0 0).YearWeek 1 = (2000, 1)) := by
  decide

/-- C1 (amended): for the date 2000-01-01, YearWeek with mode 0 returns
year 1999 and week 52, and YearWeek with mode 1 also returns year 1999
and week 52 (the ISO week of 2000-01-01, a Saturday, belongs to 1999). -/
theorem c1_yearweek_2000_amended :
    (newMysqlTime 2000 1 1 0 0 0 0).YearWeek 0 = (1999, 52) ∧
    (newMysqlTime 2000 1 1 0 0 0 0).YearWeek 1 = (1999, 52) := by
  decide

/-- C7: calcDaynr returns 0 whenever year = 0 and month = 0, for every
day value. -/
theorem c7_calcDaynr_zero_sentinel : ∀ day : Int, calcDaynr 0 0 day = 0 := by
  intro day
  simp [calcDaynr]

/-- C9: for every mode, Week returns 0 on a time value whose month or
day field is 0, short-circuiting before the week computation. -/
theorem c9_week_zero_sentinel (t : mysqlTime) (mode : Int)
    (h : t.month = 0 ∨ t.day = 0) : t.Week mode = 0 := by
  simp only [mysqlTime.Week, if_pos h]

/-- Witness for C9 at month = 0, mode = 3. -/
theorem c9_week_zero_sentinel_witness : (newMysqlTime 2000 0 5 0 0 0 0).Week 3 = 0 :=
  c9_week_zero_sentinel (newMysqlTime 2000 0 5 0 0 0 0) 3 (Or.inl (by decide))

/-- C10: timestampDiff returns 0 for every intervalType string that is
none of the nine supported unit names. -/
theorem c10_timestampDiff_unknown_unit (s : String) (t1 t2 : mysqlTime)
    (h1 : s ≠ "YEAR") (h2 : s ≠ "QUARTER") (h3 : s ≠ "MONTH") (h4 : s ≠ "WEEK")
    (h5 : s ≠ "DAY") (h6 : s ≠ "HOUR") (h7 : s ≠ "MINUTE") (h8 : s ≠ "SECOND")
    (h9 : s ≠ "MICROSECOND") : timestampDiff s t1 t2 = 0 := by
  simp only [timestampDiff, if_neg h1, if_neg h2, if_neg h3, if_neg h4, if_neg h5,
    if_neg h6, if_neg h7, if_neg h8, if_neg h9]

/-- Witness for C10 at the unsupported unit FORTNIGHT. -/
theorem c10_timestampDiff_unknown_unit_witness :
    timestampDiff "FORTNIGHT" (newMysqlTime 0 0 0 0 0 0 0) (newMysqlTime 0 0 0 0 0 0 0) = 0 :=
  c10_timestampDiff_unknown_unit "FORTNIGHT" (newMysqlTime 0 0 0 0 0 0 0)
    (newMysqlTime 0 0 0 0 0 0 0) (by decide) (by decide) (by decide) (by decide)
    (by decide) (by decide) (by decide) (by decide) (by decide)

/-- C3: weekMode masks the mode to its low 3 bits and reads them as the
MondayFirst/Year/FirstWeekday flags, with the FirstWeekday flag toggled
exactly when the MondayFirst bit is unset; in particular mode 0 gives
MondayFirst unset with effective FirstWeekday on, and mode 1 gives
MondayFirst set with FirstWeekday off. -/
theorem c3_weekMode_flags : ∀ mode : Int,
    (wbTest (weekMode mode) weekBehaviourMondayFirst = (mode % 8).toNat.testBit 0 ∧
     wbTest (weekMode mode) weekBehaviourYear = (mode % 8).toNat.testBit 1 ∧
     wbTest (weekMode mode) weekBehaviourFirstWeekday =
       (((mode % 8).toNat.testBit 2).xor (!(mode % 8).toNat.testBit 0))) ∧
    (wbTest (weekMode 0) weekBehaviourMondayFirst = false ∧
     wbTest (weekMode 0) weekBehaviourFirstWeekday = true ∧
     wbTest (weekMode 1) weekBehaviourMondayFirst = true ∧
     wbTest (weekMode 1) weekBehaviourFirstWeekday = false) := by
  intro mode
  refine ⟨?_, by decide, by decide, by decide, by decide⟩
  simp only [weekMode]
  generalize hg : (mode % 8).toNat = k
  have h8 : k < 8 := by omega
  interval_cases k <;> decide

/-- C4: the standard-calendar conversion GoTime fails exactly when some
re-extracted field of the normalized timestamp differs from the input,
it returns the normalized timestamp in the failure case as well, and
concretely 2006-12-00 fails while 2024-02-29 succeeds. -/
theorem c4_goTime_roundtrip :
    (∀ t : mysqlTime,
      ((t.GoTime).2 = true ↔
        ¬((t.GoTime).1.year = t.Year ∧ (t.GoTime).1.month = t.Month ∧
          (t.GoTime).1.day = t.Day ∧ (t.GoTime).1.hour = t.Hour ∧
          (t.GoTime).1.minute = t.Minute ∧ (t.GoTime).1.second = t.Second ∧
          (t.GoTime).1.nanosecond / 1000 = t.Microsecond)) ∧
      (t.GoTime).1 = goDate t.Year t.Month t.Day t.Hour t.Minute t.Second
        (t.Microsecond * 1000)) ∧
    ((newMysqlTime 2006 12 0 0 0 0 0).GoTime).2 = true ∧
    ((newMysqlTime 2024 2 29 0 0 0 0).GoTime).2 = false := by
  refine ⟨fun t => ⟨?_, rfl⟩, by decide, by decide⟩
  simp only [mysqlTime.GoTime, decide_eq_true_eq]

/-- C2 (counterexample): swapping the arguments of calcTimeDiff and
flipping the sign from +1 to -1 does not return the same seconds and
microseconds with neg inverted; with t1 = 00:00:01 and t2 = 00:00:02 the
swapped sign -1 call adds the operands and returns 3 seconds, not 1. -/
theorem c2_antisym_counterexample :
    ¬(calcTimeDiff (newMysqlTime 0 0 0 0 0 2 0) (newMysqlTime 0 0 0 0 0 1 0) (-1) =
      ((calcTimeDiff (newMysqlTime 0 0 0 0 0 1 0) (newMysqlTime 0 0 0 0 0 2 0) 1).1,
       (calcTimeDiff (newMysqlTime 0 0 0 0 0 1 0) (newMysqlTime 0 0 0 0 0 2 0) 1).2.1,
       !(calcTimeDiff (newMysqlTime 0 0 0 0 0 1 0) (newMysqlTime 0 0 0 0 0 2 0) 1).2.2)) := by
  decide

/-- C2 (amended): swapping t1 and t2 while keeping sign +1 yields the
same seconds and microseconds, and the neg flag of the swapped call is
set exactly when the original call is non-negative and nonzero (when the
two operands are equal both calls report neg = false). -/
theorem c2_antisym_amended (t1 t2 : mysqlTime) :
    (calcTimeDiff t2 t1 1).1 = (calcTimeDiff t1 t2 1).1 ∧
    (calcTimeDiff t2 t1 1).2.1 = (calcTimeDiff t1 t2 1).2.1 ∧
    ((calcTimeDiff t2 t1 1).2.2 = true ↔
      ((calcTimeDiff t1 t2 1).2.2 = false ∧
        ¬((calcTimeDiff t1 t2 1).1 = 0 ∧ (calcTimeDiff t1 t2 1).2.1 = 0))) := by
  rw [calcTimeDiff_plus_eq t2 t1, calcTimeDiff_plus_eq t1 t2,
    show totalMicros t2 - totalMicros t1 = -(totalMicros t1 - totalMicros t2) from by ring]
  generalize totalMicros t1 - totalMicros t2 = x
  dsimp only
  have habs : (if -x < 0 then -(-x) else -x) = (if x < 0 then -x else x) := by
    rcases lt_trichotomy x 0 with h | h | h
    · rw [if_neg (by omega), if_pos h]
    · subst h
      norm_num
    · rw [if_pos (by omega), if_neg (by omega)]
      ring
  rw [habs]
  refine ⟨rfl, rfl, ?_⟩
  have h0 : 0 ≤ (if x < 0 then -x else x) := by
    split_ifs <;> omega
  rw [tdiv_nonneg_eq_ediv _ 1000000 h0 (by norm_num),
    tmod_nonneg_eq_emod _ 1000000 h0 (by norm_num)]
  simp only [decide_eq_true_eq, decide_eq_false_iff_not, not_lt]
  constructor
  · intro h
    split_ifs at * <;> omega
  · intro h
    split_ifs at * <;> omega

/-- C6 (counterexample): for seconds = 921600 the hour field is not
seconds/3600 = 256; the store through the uint8 field truncates it to
0. -/
theorem c6_calcTimeFromSec_counterexample :
    (calcTimeFromSec (newMysqlTime 0 0 0 0 0 0 0) 921600 0).hour ≠
      (921600 : Int).tdiv 3600 := by
  decide

/-- C6 (amended): for non-negative seconds and microseconds,
calcTimeFromSec stores hour = (seconds/3600) mod 256 (the uint8
truncation; equal to seconds/3600 whenever that quotient is below 256),
minute = (seconds mod 3600)/60, second = seconds mod 60, and
microsecond = microseconds mod 2^32 (equal to the given microseconds
whenever they fit in uint32), leaving the date fields unchanged. -/
theorem c6_calcTimeFromSec_amended (tv : mysqlTime) (seconds microseconds : Int)
    (hs : 0 ≤ seconds) (hu : 0 ≤ microseconds) :
    (calcTimeFromSec tv seconds microseconds).hour = seconds / 3600 % 256 ∧
    (calcTimeFromSec tv seconds microseconds).minute = seconds % 3600 / 60 ∧
    (calcTimeFromSec tv seconds microseconds).second = seconds % 60 ∧
    (calcTimeFromSec tv seconds microseconds).microsecond = microseconds % 4294967296 ∧
    (calcTimeFromSec tv seconds microseconds).year = tv.year ∧
    (calcTimeFromSec tv seconds microseconds).month = tv.month ∧
    (calcTimeFromSec tv seconds microseconds).day = tv.day := by
  simp only [calcTimeFromSec]
  rw [tdiv_nonneg_eq_ediv seconds 3600 hs (by norm_num),
    tmod_nonneg_eq_emod seconds 3600 hs (by norm_num),
    tdiv_nonneg_eq_ediv (seconds % 3600) 60 (by omega) (by norm_num),
    tmod_nonneg_eq_emod (seconds % 3600) 60 (by omega) (by norm_num)]
  refine ⟨?_, ?_, ?_, ?_, ?_, ?_, ?_⟩ <;> first | trivial | omega

/-- Witness for C6 at seconds = 3700, microseconds = 5. -/
theorem c6_calcTimeFromSec_amended_witness :
    (calcTimeFromSec (newMysqlTime 0 0 0 0 0 0 0) 3700 5).hour = 3700 / 3600 % 256 ∧
    (calcTimeFromSec (newMysqlTime 0 0 0 0 0 0 0) 3700 5).minute = 3700 % 3600 / 60 ∧
    (calcTimeFromSec (newMysqlTime 0 0 0 0 0 0 0) 3700 5).second = (3700 : Int) % 60 ∧
    (calcTimeFromSec (newMysqlTime 0 0 0 0 0 0 0) 3700 5).microsecond =
      (5 : Int) % 4294967296 ∧
    (calcTimeFromSec (newMysqlTime 0 0 0 0 0 0 0) 3700 5).year =
      (newMysqlTime 0 0 0 0 0 0 0).year ∧
    (calcTimeFromSec (newMysqlTime 0 0 0 0 0 0 0) 3700 5).month =
      (newMysqlTime 0 0 0 0 0 0 0).month ∧
    (calcTimeFromSec (newMysqlTime 0 0 0 0 0 0 0) 3700 5).day =
      (newMysqlTime 0 0 0 0 0 0 0).day :=
  c6_calcTimeFromSec_amended (newMysqlTime 0 0 0 0 0 0 0) 3700 5 (by norm_num) (by norm_num)

/-- C8: calcDaynr is strictly increasing across consecutive real
calendar dates: on every valid date with positive year the next calendar
day has day number exactly one more, and concretely the day numbers of
2000-02-28, 2000-02-29 and 2000-03-01 are strictly increasing. -/
theorem c8_calcDaynr_strict_increase (y m d : Int) (h : validDate y m d) :
    (calcDaynr (nextDate y m d).1 (nextDate y m d).2.1 (nextDate y m d).2.2 =
      calcDaynr y m d + 1) ∧
    calcDaynr 2000 2 28 < calcDaynr 2000 2 29 ∧
    calcDaynr 2000 2 29 < calcDaynr 2000 3 1 :=
  ⟨calcDaynr_nextDate y m d h, by decide, by decide⟩

/-- Witness for C8 at the leap day boundary 2000-02-28. -/
theorem c8_calcDaynr_strict_increase_witness :
    (calcDaynr (nextDate 2000 2 28).1 (nextDate 2000 2 28).2.1 (nextDate 2000 2 28).2.2 =
      calcDaynr 2000 2 28 + 1) ∧
    calcDaynr 2000 2 28 < calcDaynr 2000 2 29 ∧
    calcDaynr 2000 2 29 < calcDaynr 2000 3 1 :=
  c8_calcDaynr_strict_increase 2000 2 28 (by decide)

/-- C5 (counterexample): with t1 = 2000-01-00 (a zero-day sentinel) and
t2 = 1999-12-31 01:00:00, t2 is strictly later than t1 on the engine
scale, yet timestampDiff MONTH returns -1 through the uint wraparound,
contradicting the claim that the result is non-negative exactly when t2
is later. -/
theorem c5_timestampDiff_sign_counterexample :
    totalMicros (newMysqlTime 2000 1 0 0 0 0 0) <
      totalMicros (newMysqlTime 1999 12 31 1 0 0 0) ∧
    timestampDiff "MONTH" (newMysqlTime 2000 1 0 0 0 0 0)
      (newMysqlTime 1999 12 31 1 0 0 0) < 0 := by
  constructor <;> decide

/-- C5 (amended): timestampDiff computes calcTimeDiff (t2, t1, +1), whose
neg flag is false exactly when t2 is not earlier than t1; for the six
time-based units the result is non-negative whenever t2 is not earlier
than t1 and non-positive whenever t1 is not earlier than t2, for all
time values; for YEAR/QUARTER/MONTH the same sign behaviour holds for
valid time values (real calendar dates with in-range time fields). -/
theorem c5_timestampDiff_sign (u : String) (t1 t2 : mysqlTime) :
    ((calcTimeDiff t2 t1 1).2.2 = false ↔ totalMicros t1 ≤ totalMicros t2) ∧
    ((u = "WEEK" ∨ u = "DAY" ∨ u = "HOUR" ∨ u = "MINUTE" ∨ u = "SECOND" ∨
        u = "MICROSECOND") →
      (totalMicros t1 ≤ totalMicros t2 → 0 ≤ timestampDiff u t1 t2) ∧
      (totalMicros t2 ≤ totalMicros t1 → timestampDiff u t1 t2 ≤ 0)) ∧
    ((u = "YEAR" ∨ u = "QUARTER" ∨ u = "MONTH") → validTime t1 → validTime t2 →
      (totalMicros t1 ≤ totalMicros t2 → 0 ≤ timestampDiff u t1 t2) ∧
      (totalMicros t2 ≤ totalMicros t1 → timestampDiff u t1 t2 ≤ 0)) :=
  ⟨calcTimeDiff_neg_iff t1 t2,
   fun hu => timestampDiff_time_unit_sign u t1 t2 hu,
   fun hu hv1 hv2 => timestampDiff_month_unit_sign u t1 t2 hu hv1 hv2⟩

/-- Witness for C5 at MONTH with two valid ordered dates. -/
theorem c5_timestampDiff_sign_witness :
    0 ≤ timestampDiff "MONTH" (newMysqlTime 2024 1 15 12 0 0 0)
      (newMysqlTime 2024 3 20 6 30 0 0) :=
  ((c5_timestampDiff_sign "MONTH" (newMysqlTime 2024 1 15 12 0 0 0)
      (newMysqlTime 2024 3 20 6 30 0 0)).2.2 (Or.inr (Or.inr rfl))
    (by decide) (by decide)).1 (by decide)
